import Mathlib

/-!
Verification of the CareerBoost AI core logic module (`utils.py`) plus the
profile-merge logic of the two application shells.  Strings are modelled as
lists of Unicode characters (`Str`), matching Python's code-point string
semantics; each definition below is a direct transcription of the
corresponding Python function.
-/

/-- Python strings as lists of code points. -/
abbrev Str := List Char

/-- Python whitespace for `str.strip` and the regex class `\s`:
space, tab, newline, carriage return, vertical tab, form feed. -/
def isPySpace (c : Char) : Bool :=
  c == ' ' || c == '\t' || c == '\n' || c == '\x0d' || c == '\x0b' || c == '\x0c'

/-- Python `str.lower()` (character-wise, ASCII-faithful). -/
def pyLower (s : Str) : Str := s.map Char.toLower

/-- Python `str.strip()`: drop whitespace from both ends. -/
def pyStrip (s : Str) : Str :=
  ((s.dropWhile isPySpace).reverse.dropWhile isPySpace).reverse

/-- Python `text.split('\n')`. -/
def splitLines : Str → List Str
  | [] => [[]]
  | c :: rest =>
    if c == '\n' then [] :: splitLines rest
    else
      match splitLines rest with
      | [] => [[c]]
      | l :: ls => (c :: l) :: ls

/-- Whether `p` is an initial segment of `s` (exact characters). -/
def strStarts : Str → Str → Bool
  | [], _ => true
  | _ :: _, [] => false
  | a :: as, b :: bs => a == b && strStarts as bs

/-- Python `needle in hay` substring test. -/
def strContains : Str → Str → Bool
  | n, [] => n.isEmpty
  | n, c :: rest => strStarts n (c :: rest) || strContains n rest

/-- Python `str.title()`: a cased character that follows an uncased character
is uppercased, any other cased character is lowercased. -/
def pyTitleAux (prevCased : Bool) : Str → Str
  | [] => []
  | c :: rest =>
    if c.isAlpha then
      (if prevCased then c.toLower else c.toUpper) :: pyTitleAux true rest
    else
      c :: pyTitleAux false rest

/-- Python `str.title()`. -/
def pyTitle (s : Str) : Str := pyTitleAux false s

/-- Python string `<=`: code-point lexicographic order (Boolean form). -/
def strLeB : Str → Str → Bool
  | [], _ => true
  | _ :: _, [] => false
  | a :: as, b :: bs => if a < b then true else if a = b then strLeB as bs else false

/-- Python string `<=` as a relation. -/
def strLe (a b : Str) : Prop := strLeB a b = true

instance : DecidableRel strLe := fun a b => by unfold strLe; infer_instance

/-- First-occurrence deduplication with an accumulator of already seen
elements; transcribes the `seen`-set loop of `_extract_skills`. -/
def dedupFirstAux (seen : List Str) : List Str → List Str
  | [] => []
  | x :: rest =>
    if x ∈ seen then dedupFirstAux seen rest
    else x :: dedupFirstAux (x :: seen) rest

/-- First-occurrence deduplication (Python `dict.fromkeys` / seen-set loop). -/
def dedupFirst (l : List Str) : List Str := dedupFirstAux [] l

/-- Round half to even of the exact rational `a / n` (`n > 0`): the tie
rule of both IEEE-754 rounding and Python's integer `round`.  Used inside
the binary64 model below, and as the exact-arithmetic reading of `round`
in the original claim C1. -/
def roundHalfEven (a n : Nat) : Nat :=
  let q := a / n
  let r := a % n
  if 2 * r < n then q
  else if n < 2 * r then q + 1
  else if q % 2 = 0 then q else q + 1

/-- Least `k` with `p * 2^k ≥ q` (fuel-indexed; fuel `q` suffices for
`p ≥ 1`): locates the binade of `p / q`. -/
def leastShift : Nat → Nat → Nat → Nat
  | 0, _, _ => 0
  | fuel + 1, p, q => if q ≤ p then 0 else 1 + leastShift fuel (2 * p) q

/-- Floor of log2 (fuel-indexed; fuel `n` suffices). -/
def log2Fuel : Nat → Nat → Nat
  | 0, _ => 0
  | fuel + 1, n => if n < 2 then 0 else 1 + log2Fuel fuel (n / 2)

/-- Floor of log2 of a natural number. -/
def natLog2 (n : Nat) : Nat := log2Fuel n n

/-- The IEEE-754 binary64 value of `m / n` for `1 ≤ m ≤ n`, as a dyadic
pair `(s, shift)` denoting `s / 2^shift`: the exact quotient is rounded to
53 significant bits (grid `2^(-52-k)` on the binade `[2^(-k), 2^(-k+1))`),
with the exponent clamped to the subnormal grid `2^(-1074)`.  This is the
correctly rounded result CPython's `int / int` true division produces. -/
def fl64Div (m n : Nat) : Nat × Nat :=
  let k := leastShift n m n
  let shift := min (52 + k) 1074
  (roundHalfEven (m * 2 ^ shift) n, shift)

/-- The IEEE-754 binary64 product of a dyadic `s / 2^shift` (with
`s ≤ 2^53`) and the exactly representable literal `100`: the exact product
`100 * s / 2^shift` is rounded back to 53 significant bits.  Returns
`(s2, e)` denoting `s2 / 2^e`. -/
def fl64Mul100 (s shift : Nat) : Nat × Nat :=
  let N := s * 100
  let k2 := if N < 2 ^ 53 then 0 else natLog2 N - 52
  (roundHalfEven N (2 ^ k2), shift - k2)

/-- Python's `round((m / n) * 100)` for `0 ≤ m ≤ n`, `n > 0`, with the
source's float semantics: correctly rounded binary64 division, correctly
rounded binary64 multiplication by 100, then `round` (nearest integer,
ties to even) on the exact value of the resulting double.  At rational
ties this can differ by one from `roundHalfEven (100 * m) n`. -/
def pyFloatRound100 (m n : Nat) : Nat :=
  if m = 0 then 0
  else
    let d := fl64Div m n
    let p := fl64Mul100 d.1 d.2
    roundHalfEven p.1 (2 ^ p.2)

/-- `str.join` with a separator. -/
def joinSep (sep : Str) : List Str → Str
  | [] => []
  | [x] => x
  | x :: y :: rest => x ++ sep ++ joinSep sep (y :: rest)

/-- The fixed skill vocabulary `SKILL_KEYWORDS` of `utils.py`, in source order. -/
def SKILL_KEYWORDS : List Str :=
  ([ "python", "java", "javascript", "typescript", "react", "angular", "vue.js",
     "node.js", "express", "next.js", "nuxt", "svelte",
     "sql", "mongodb", "postgresql", "mysql", "redis", "elasticsearch", "cassandra",
     "docker", "kubernetes", "terraform", "ansible",
     "aws", "azure", "gcp", "google cloud",
     "git", "github", "gitlab", "bitbucket", "ci/cd", "jenkins", "github actions",
     "machine learning", "deep learning", "nlp", "computer vision",
     "tensorflow", "pytorch", "scikit-learn", "pandas", "numpy", "matplotlib",
     "html", "css", "sass", "less", "bootstrap", "tailwind css", "material ui",
     "django", "flask", "fastapi", "spring boot", "laravel", "ruby on rails",
     "rest api", "graphql", "microservices", "websocket",
     "agile", "scrum", "kanban", "jira", "confluence",
     "linux", "bash", "shell scripting", "powershell",
     "c++", "c#", ".net", "go", "golang", "rust", "swift", "kotlin",
     "react native", "flutter", "xamarin",
     "kafka", "rabbitmq", "celery", "aws lambda",
     "power bi", "tableau", "excel", "data analysis", "data science",
     "project management", "leadership", "communication", "teamwork",
     "problem solving", "critical thinking", "time management",
     "figma", "adobe xd", "ui/ux", "wireframing", "prototyping",
     "aws s3", "ec2", "dynamodb", "azure devops" ] : List String).map String.data

/-- `_extract_skills`: vocabulary terms found as substrings of the lowered
text, title-cased in vocabulary order, first-occurrence deduplicated, then
sorted. -/
def _extract_skills (text : Str) : List Str :=
  let lower := pyLower text
  let found := (SKILL_KEYWORDS.filter (fun kw => strContains kw lower)).map pyTitle
  let unique := dedupFirst found
  List.insertionSort strLe unique

/-- An experience entry: the title/description dict of `_extract_experience`. -/
structure ExpEntry where
  title : Str
  description : Str
deriving DecidableEq, Repr

/-- The Candidate Profile dict produced by `parse_cv`. -/
structure CVData where
  raw_text : Str
  name : Str
  email : Str
  phone : Str
  skills : List Str
  experience : List ExpEntry
  education : List Str
deriving DecidableEq, Repr

/-- The dict returned by `analyze_ats`. -/
structure ATSResult where
  score : Nat
  matched_skills : List Str
  missing_skills : List Str
  tips : List Str
deriving DecidableEq, Repr

/-- Match a literal pattern case-insensitively (pattern given lowercase),
returning the remaining input. -/
def matchLitCI : Str → Str → Option Str
  | [], s => some s
  | _ :: _, [] => none
  | p :: ps, c :: cs => if c.toLower = p then matchLitCI ps cs else none

/-- Match a literal pattern exactly, returning the remaining input. -/
def matchLit : Str → Str → Option Str
  | [], s => some s
  | _ :: _, [] => none
  | p :: ps, c :: cs => if c = p then matchLit ps cs else none

/-- Greedy match of the regex `(\d+)\+?\s*years?` at the head of the input:
returns the digit group and the total matched length. -/
def matchYear (s : Str) : Option (Str × Nat) :=
  let digits := s.takeWhile Char.isDigit
  if digits.isEmpty then none
  else
    let r1 := s.drop digits.length
    let pl : Nat × Str := match r1 with
      | '+' :: t => (1, t)
      | _ => (0, r1)
    let ws := pl.2.takeWhile isPySpace
    let r3 := pl.2.drop ws.length
    match matchLit ("year".data) r3 with
    | none => none
    | some r4 =>
      let sl : Nat := match r4 with
        | 's' :: _ => 1
        | _ => 0
      some (digits, digits.length + pl.1 + ws.length + 4 + sl)

/-- `re.finditer` scan for `matchYear`: leftmost matches, continuing after
each match (fuel-indexed; fuel `s.length` always suffices). -/
def findYearsAux : Nat → Str → List Str
  | 0, _ => []
  | _ + 1, [] => []
  | fuel + 1, c :: rest =>
    match matchYear (c :: rest) with
    | some (g, L) => g :: findYearsAux fuel ((c :: rest).drop (max L 1))
    | none => findYearsAux fuel rest

/-- All `(\d+)\+?\s*years?` digit groups of the text, in match order. -/
def findYears (s : Str) : List Str := findYearsAux s.length s

/-- `_extract_job_keywords`: vocabulary terms contained in the (lowered) job
text in vocabulary order, then one synthetic `"<N>+ years experience"`
keyword per regex match. -/
def _extract_job_keywords (job_text : Str) : List Str :=
  SKILL_KEYWORDS.filter (fun kw => strContains kw job_text)
    ++ (findYears job_text).map (fun g => g ++ ("+ years experience".data))

/-- The matched/missing classification loop of `analyze_ats`. -/
def ats_classify (job_kws : List Str) (cv_lower : Str) : List Str × List Str :=
  job_kws.partition (fun kw => strContains kw cv_lower)

/-- The defensive clamp `max(0, min(100, score))`. -/
def clampScore (x : Nat) : Nat := max 0 (min 100 x)

/-- The fixed skill-to-resource map of `_generate_tips`. -/
def resource_map : List (Str × Str) :=
  ([ ("docker", "Docker Official Docs + Play With Docker (free)"),
     ("aws", "AWS Free Tier + freeCodeCamp AWS Course"),
     ("kubernetes", "Kubernetes.io Interactive Tutorial (free)"),
     ("python", "Python.org Tutorial + freeCodeCamp"),
     ("javascript", "freeCodeCamp + JavaScript.info"),
     ("react", "React.dev official tutorial (free)"),
     ("sql", "SQLBolt + W3Schools SQL"),
     ("git", "GitHub Learning Lab (free)"),
     ("typescript", "TypeScript Handbook (official, free)"),
     ("machine learning", "Andrew Ng ML Course on Coursera (audit free)") ]
   : List (String × String)).map (fun p => (p.1.data, p.2.data))

/-- One rule-(a) tip: names the (title-cased) skill and the mapped resource,
falling back to the generic tutorials suggestion. -/
def tipForSkill (skill : Str) : Str :=
  let res := (resource_map.lookup (pyLower skill)).getD ("YouTube tutorials + freeCodeCamp".data)
  ("Add \"".data) ++ pyTitle skill ++ ("\" — Learn via: ".data) ++ res ++ (" (~2-4 hrs)".data)

def projectsTip : Str :=
  "Add a \x27Projects\x27 section — concrete examples boost ATS and recruiter trust.".data

def quantifyTip : Str :=
  "Include quantifiable achievements (e.g., \x27Reduced load time by 40%\x27).".data

def certificationsTip : Str :=
  "Add certifications — even free ones (Google, AWS, Meta) add credibility.".data

def verbsTip : Str :=
  "Use strong action verbs: Developed, Led, Architected, Implemented.".data

def expandSkillsTip : Str :=
  "Expand your Skills section — aim for 8-12 listed skills.".data

/-- The achievement markers of tip rule (c). -/
def achievementWords : List Str :=
  (["increased", "improved", "reduced", "grew", "%"] : List String).map String.data

/-- The strong verbs of tip rule (e). -/
def actionVerbs : List Str :=
  (["developed", "led", "designed", "built", "implemented"] : List String).map String.data

/-- `_generate_tips`: up to four skill-gap tips, then the five conditional
tips in fixed order, truncated to 8. -/
def _generate_tips (cv : CVData) (missing : List Str) (cv_lower : Str) : List Str :=
  let tips := (missing.take 4).map tipForSkill
  let tips := if strContains ("project".data) cv_lower then tips else tips ++ [projectsTip]
  let tips := if achievementWords.any (fun v => strContains v cv_lower) then tips
              else tips ++ [quantifyTip]
  let tips := if strContains ("certification".data) cv_lower
                 || strContains ("certified".data) cv_lower then tips
              else tips ++ [certificationsTip]
  let tips := if actionVerbs.any (fun v => strContains v cv_lower) then tips
              else tips ++ [verbsTip]
  let tips := if cv.skills.length < 6 then tips ++ [expandSkillsTip] else tips
  tips.take 8

/-- `analyze_ats`: keyword extraction from the lowered job text, matched and
missing classification against the lowered CV text, the score
`round((len(matched) / len(job_kws)) * 100)` computed with the source's
binary64 float semantics and then clamped, missing-list truncation to 10,
and tips. -/
def analyze_ats (cv : CVData) (job_description : Str) : ATSResult :=
  let cv_lower := pyLower cv.raw_text
  let job_lower := pyLower job_description
  let job_kws := _extract_job_keywords job_lower
  let mm := ats_classify job_kws cv_lower
  let score0 := if job_kws.isEmpty then 50
                else pyFloatRound100 mm.1.length job_kws.length
  let score := clampScore score0
  let tips := _generate_tips cv mm.2 cv_lower
  ⟨score, mm.1, mm.2.take 10, tips⟩

/-- Alternative `work\s*experience` of the experience-header regex,
matched case-insensitively; returns the remaining input. -/
def altWorkExp (s : Str) : Option Str :=
  (matchLitCI ("work".data) s).bind fun r => matchLitCI ("experience".data) (r.dropWhile isPySpace)

/-- Alternative `professional\s*experience`. -/
def altProfExp (s : Str) : Option Str :=
  (matchLitCI ("professional".data) s).bind fun r =>
    matchLitCI ("experience".data) (r.dropWhile isPySpace)

/-- Alternative `employment` (the source pattern has no optional
`history` suffix here). -/
def altEmployment (s : Str) : Option Str := matchLitCI ("employment".data) s

/-- Alternative `experience\s*&?\s*history` (in the source pattern the
`history` part is mandatory). -/
def altExpHistory (s : Str) : Option Str :=
  (matchLitCI ("experience".data) s).bind fun r =>
    let r2 := r.dropWhile isPySpace
    let r3 : Str := match r2 with
      | '&' :: t => t
      | _ => r2
    matchLitCI ("history".data) (r3.dropWhile isPySpace)

/-- The experience-header regex of `_extract_experience` at one position:
alternatives tried in source order, returning the matched length. -/
def matchHeaderAt (s : Str) : Option Nat :=
  match altWorkExp s with
  | some r => some (s.length - r.length)
  | none =>
  match altProfExp s with
  | some r => some (s.length - r.length)
  | none =>
  match altEmployment s with
  | some r => some (s.length - r.length)
  | none =>
  match altExpHistory s with
  | some r => some (s.length - r.length)
  | none => none

/-- `re.search` for a positional matcher: leftmost match position and length. -/
def searchFrom (m : Str → Option Nat) : Str → Nat → Option (Nat × Nat)
  | [], _ => none
  | c :: rest, pos =>
    match m (c :: rest) with
    | some L => some (pos, L)
    | none => searchFrom m rest (pos + 1)

/-- The section names of the next-section regex of `_extract_experience`. -/
def sectionWords : List Str :=
  (["education", "skills", "certifications", "projects", "awards"] : List String).map String.data

/-- One position of the next-section regex `\n(education|skills|certifications|projects|awards)`
(case-insensitive): a newline followed by a section word. -/
def isNextSecAt : Str → Bool
  | '\n' :: rest => sectionWords.any (fun w => (matchLitCI w rest).isSome)
  | _ => false

/-- `re.search` start position of a Boolean positional matcher. -/
def searchPos (p : Str → Bool) : Str → Option Nat
  | [] => none
  | c :: rest => if p (c :: rest) then some 0 else (searchPos p rest).map (· + 1)

/-- The entry-collection loop of `_extract_experience`: append `line[:120]`
for each line longer than 8 characters, stopping once 5 entries exist. -/
def collectEntries : List Str → List Str → List Str
  | acc, [] => acc
  | acc, l :: rest =>
    let acc2 := if l.length > 8 then acc ++ [l.take 120] else acc
    if acc2.length ≥ 5 then acc2 else collectEntries acc2 rest

/-- The title/description pairing loop of `_extract_experience`
(fuel-indexed; fuel `l.length` always suffices): the next line becomes the
description when longer than 20 characters, advancing by two lines, else the
description is empty and it advances by one. -/
def pairUpFuel : Nat → List Str → List ExpEntry
  | 0, _ => []
  | _ + 1, [] => []
  | _ + 1, [t] => [⟨t, []⟩]
  | fuel + 1, t :: d :: rest2 =>
    if d.length > 20 then ⟨t, d⟩ :: pairUpFuel fuel rest2
    else ⟨t, []⟩ :: pairUpFuel fuel (d :: rest2)

/-- The title/description pairing loop of `_extract_experience`. -/
def pairUp (l : List Str) : List ExpEntry := pairUpFuel l.length l

/-- The placeholder experience entry. -/
def expPlaceholder : ExpEntry :=
  ⟨"Professional Experience".data, "See CV for details.".data⟩

/-- `_extract_experience`: find the experience header, cut the chunk at the
next section header (a newline followed by a section word) or end of text,
collect and pair lines, and fall back to the placeholder. -/
def _extract_experience (text : Str) : List ExpEntry :=
  match searchFrom matchHeaderAt text 0 with
  | none => [expPlaceholder]
  | some (pos, L) =>
    let tail := text.drop (pos + L)
    let chunk := match searchPos isNextSecAt tail with
      | some j => tail.take j
      | none => tail
    let lines := ((splitLines chunk).map pyStrip).filter (fun l => !l.isEmpty)
    let paired := pairUp (collectEntries [] lines)
    if paired.isEmpty then [expPlaceholder] else paired

/-- Length-returning case-insensitive literal matcher. -/
def matchLitCILen (p : Str) (s : Str) : Option Nat :=
  (matchLitCI p s).map (fun r => s.length - r.length)

/-- Matcher for the abbreviated degree patterns `x\.?y\.?`
(case-insensitive, greedy optional dots), returning the matched length. -/
def matchOptDot (x y : Char) : Str → Option Nat
  | [] => none
  | c :: rest =>
    if c.toLower = x then
      let d1 : Nat × Str := match rest with
        | '.' :: t => (1, t)
        | _ => (0, rest)
      match d1.2 with
      | [] => none
      | d :: rest2 =>
        if d.toLower = y then
          let d2 : Nat := match rest2 with
            | '.' :: _ => 1
            | _ => 0
          some (2 + d1.1 + d2)
        else none
    else none

/-- Generic fuel-indexed `re.finditer`: leftmost non-overlapping matches as
(start, length) pairs; fuel `s.length` always suffices. -/
def findAllAux (m : Str → Option Nat) : Nat → Str → Nat → List (Nat × Nat)
  | 0, _, _ => []
  | _ + 1, [], _ => []
  | fuel + 1, c :: rest, pos =>
    match m (c :: rest) with
    | some L => (pos, L) :: findAllAux m fuel ((c :: rest).drop (max L 1)) (pos + max L 1)
    | none => findAllAux m fuel rest (pos + 1)

/-- All matches of a positional matcher over the text. -/
def findAll (m : Str → Option Nat) (s : Str) : List (Nat × Nat) :=
  findAllAux m s.length s 0

/-- The degree-keyword patterns of `_extract_education`, in source order. -/
def eduKeywordMatchers : List (Str → Option Nat) :=
  [ matchLitCILen ("bachelor".data), matchLitCILen ("master".data),
    matchLitCILen ("phd".data), matchLitCILen ("doctorate".data),
    matchOptDot 'b' 's', matchOptDot 'm' 's',
    matchOptDot 'b' 'a', matchOptDot 'm' 'a',
    matchLitCILen ("mba".data) ]

/-- `_extract_education`: a stripped context window (40 before, 120 after)
around every match of every degree keyword, keyword-then-match order, with a
placeholder when nothing matches. -/
def _extract_education (text : Str) : List Str :=
  let edu := eduKeywordMatchers.flatMap (fun m =>
    (findAll m text).map (fun se =>
      let lo := se.1 - 40
      let hi := min text.length (se.1 + se.2 + 120)
      pyStrip ((text.drop lo).take (hi - lo))))
  if edu.isEmpty then ["Education details in CV".data] else edu

/-- Modelled from the claim wording of C3: header alternative
`employment(\s*history)?` with a greedy optional `history` suffix. -/
def claimAltEmployment (s : Str) : Option Str :=
  (matchLitCI ("employment".data) s).map (fun r =>
    match matchLitCI ("history".data) (r.dropWhile isPySpace) with
    | some r2 => r2
    | none => r)

/-- Modelled from the claim wording of C3: header alternative
`experience(\s*&?\s*history)?` with a greedy optional suffix group. -/
def claimAltExpHistory (s : Str) : Option Str :=
  (matchLitCI ("experience".data) s).map (fun r =>
    let r2 := r.dropWhile isPySpace
    let r3 : Str := match r2 with
      | '&' :: t => t
      | _ => r2
    match matchLitCI ("history".data) (r3.dropWhile isPySpace) with
    | some r4 => r4
    | none => r)

/-- Modelled from the claim wording of C3: the claimed header pattern
`(work experience|professional experience|employment(\s*history)?|experience(\s*&?\s*history)?)`
at one position. -/
def claimMatchHeaderAt (s : Str) : Option Nat :=
  match altWorkExp s with
  | some r => some (s.length - r.length)
  | none =>
  match altProfExp s with
  | some r => some (s.length - r.length)
  | none =>
  match claimAltEmployment s with
  | some r => some (s.length - r.length)
  | none =>
  match claimAltExpHistory s with
  | some r => some (s.length - r.length)
  | none => none

/-- Modelled from the claim wording of C3: next-section header
`(education|skills|certifications|projects|awards)` with no preceding
newline required. -/
def claimIsNextSecAt (s : Str) : Bool :=
  sectionWords.any (fun w => (matchLitCI w s).isSome)

/-- Modelled from the claim wording of C3: experience extraction with the
claimed header pattern, the claimed next-section pattern, and the
placeholder returned exactly when no header match exists. -/
def claimExtractExperience (text : Str) : List ExpEntry :=
  match searchFrom claimMatchHeaderAt text 0 with
  | none => [expPlaceholder]
  | some (pos, L) =>
    let tail := text.drop (pos + L)
    let chunk := match searchPos claimIsNextSecAt tail with
      | some j => tail.take j
      | none => tail
    let lines := ((splitLines chunk).map pyStrip).filter (fun l => !l.isEmpty)
    pairUp (collectEntries [] lines)

/-- The amended description of `_extract_experience`: the source header and
next-section patterns, qualifying lines written as filter/truncate/take, and
the placeholder returned when no header matches or no entries survive. -/
def amendedExtractExperience (text : Str) : List ExpEntry :=
  match searchFrom matchHeaderAt text 0 with
  | none => [expPlaceholder]
  | some (pos, L) =>
    let tail := text.drop (pos + L)
    let chunk := match searchPos isNextSecAt tail with
      | some j => tail.take j
      | none => tail
    let lines := ((splitLines chunk).map pyStrip).filter (fun l => !l.isEmpty)
    let paired := pairUp (((lines.filter (fun l => l.length > 8)).map (fun l => l.take 120)).take 5)
    if paired.isEmpty then [expPlaceholder] else paired

/-- One roadmap entry produced by an iteration of `generate_skills_roadmap`. -/
structure RoadmapEntry where
  index : Nat
  skill : Str
  weeks : Str
  resources : List Str
  steps : List Str
deriving DecidableEq, Repr

/-- The fixed `ROADMAP_DB` table of `utils.py`. -/
def ROADMAP_DB : List (Str × (Str × List Str)) :=
  ([ ("python", ("3-5", ["Python.org Tutorial", "freeCodeCamp Python", "Codecademy"])),
     ("javascript", ("4-6", ["freeCodeCamp JS", "JavaScript.info", "MDN Web Docs"])),
     ("typescript", ("2-3", ["TypeScript Handbook", "freeCodeCamp TS", "Udemy (free coupons)"])),
     ("react", ("3-4", ["React.dev Tutorial", "freeCodeCamp React", "Scrimba (free tier)"])),
     ("node.js", ("3-4", ["Node.js Docs", "freeCodeCamp Node", "The Odin Project"])),
     ("docker", ("2-3", ["Docker Docs", "Play With Docker", "YouTube: Docker in 1 Hr"])),
     ("kubernetes", ("4-6", ["Kubernetes.io Tutorial", "KodeKloud (free)", "CNCF Landscape"])),
     ("aws", ("6-8", ["AWS Free Tier", "freeCodeCamp AWS", "A Cloud Guru (free tier)"])),
     ("azure", ("5-7", ["Microsoft Learn", "Azure Free Tier", "YouTube: Azure in 1 Hr"])),
     ("gcp", ("5-7", ["Google Cloud Skills Boost", "GCP Free Tier", "Qwiklabs"])),
     ("sql", ("2-3", ["SQLBolt", "W3Schools SQL", "Khan Academy"])),
     ("git", ("1-2", ["Git-SCM.com", "GitHub Learning Lab", "Atlassian Git Tutorial"])),
     ("machine learning", ("8-12", ["Andrew Ng ML (Coursera audit)", "fast.ai", "Kaggle Learn"])),
     ("data science", ("6-8", ["Kaggle Learn", "freeCodeCamp Data Science", "pandas Docs"])),
     ("ci/cd", ("2-3", ["GitHub Actions Docs", "Jenkins Tutorials", "GitLab CI Docs"])),
     ("linux", ("3-4", ["The Linux Command Line (book)", "Over The Wire Bandit", "Linux Journey"])) ]
   : List (String × (String × List String))).map
    (fun p => (p.1.data, (p.2.1.data, p.2.2.map String.data)))

/-- The fallback table row for skills absent from `ROADMAP_DB`. -/
def roadmapDefault : Str × List Str :=
  ("2-4".data, (["YouTube Tutorials", "freeCodeCamp", "Udemy (free coupons)"] : List String).map String.data)

/-- Decimal digits of a natural number, for the index interpolation. -/
def natDigits (n : Nat) : Str := Nat.toDigits 10 n

/-- The three templated action-plan lines of one roadmap entry, exactly as
interpolated in the markdown. -/
def roadmapSteps (skill : Str) : List Str :=
  [ ("  1. **Week 1** — Complete a beginner tutorial on ".data) ++ pyTitle skill ++ ("\n".data),
    ("  2. **Week 2** — Build a small hands-on project using ".data) ++ pyTitle skill ++ ("\n".data),
    "  3. **Week 3+** — Add the project to your GitHub & update your CV\n".data ]

/-- The roadmap entry for position `i` (1-based) and a skill: `ROADMAP_DB`
lookup on the lowered skill with the generic fallback. -/
def roadmapEntryFor (i : Nat) (skill : Str) : RoadmapEntry :=
  let info := (ROADMAP_DB.lookup (pyLower skill)).getD roadmapDefault
  ⟨i, skill, info.1, info.2, roadmapSteps skill⟩

/-- The entries generated by the loop of `generate_skills_roadmap`:
`enumerate(missing_skills[:8], 1)`. -/
def roadmapEntries (missing_skills : List Str) : List RoadmapEntry :=
  (missing_skills.take 8).enum.map (fun p => roadmapEntryFor (p.1 + 1) p.2)

/-- Markdown block for one roadmap entry, as concatenated in the source loop. -/
def roadmapEntryMd (e : RoadmapEntry) : Str :=
  ("## ".data) ++ natDigits e.index ++ (". ".data) ++ pyTitle e.skill ++ ("\n\n".data)
  ++ ("⏱️ **Estimated Time:** ".data) ++ e.weeks ++ (" weeks\n\n".data)
  ++ ("📖 **Free Resources:**\n".data)
  ++ e.resources.flatMap (fun r => ("  - ".data) ++ r ++ ("\n".data))
  ++ ("\n✅ **Action Plan:**\n".data)
  ++ e.steps.flatMap id
  ++ ("\n---\n\n".data)

/-- `generate_skills_roadmap`: the markdown roadmap document, with the
generation date passed in for `datetime.datetime.now()`. -/
def generate_skills_roadmap (today : Str) (missing_skills : List Str) : Str :=
  ("# 📚 Personalized Skills Roadmap\n\n*Generated on ".data) ++ today ++ ("*\n\n---\n\n".data)
  ++ (roadmapEntries missing_skills).flatMap roadmapEntryMd
  ++ ("> 💡 **Tip:** Focus on 2-3 skills at a time. Consistency beats intensity.\n".data)

/-- The skills merge of the streamlit shell
(`list(dict.fromkeys(cv_skills + li_skills))`). -/
def merge_skills_streamlit (primary secondary : List Str) : List Str :=
  dedupFirst (primary ++ secondary)

/-- The profile merge of the streamlit shell: only the skills key is
reassigned, every scalar field keeps the primary value. -/
def merge_profiles_streamlit (primary secondary : CVData) : CVData :=
  ⟨primary.raw_text, primary.name, primary.email, primary.phone,
   merge_skills_streamlit primary.skills secondary.skills,
   primary.experience, primary.education⟩

/-- A ReportLab flowable of `generate_optimized_cv`, abstracted to the style
name and the interpolated markup text. -/
inductive Flowable where
  | para (style : Str) (text : Str)
  | hr
deriving DecidableEq, Repr

/-- `generate_optimized_cv`: the story of flowables built from the profile
(the byte-level PDF rendering of the story by ReportLab is the out-of-scope
document-rendering capability; the unused `job_description` parameter is
kept). -/
def generate_optimized_cv (cv_data : CVData) (job_description : Option Str) : List Flowable :=
  let _ := job_description
  let nameP := [Flowable.para ("Name".data) cv_data.name]
  let parts := (if cv_data.email.isEmpty then [] else [cv_data.email])
            ++ (if cv_data.phone.isEmpty then [] else [cv_data.phone])
  let contact := if parts.isEmpty then []
                 else [Flowable.para ("Contact".data) (joinSep (" • ".data) parts)]
  let preview := joinSep (", ".data) (cv_data.skills.take 5)
  let skills_preview := if preview.isEmpty then ("diverse technologies".data) else preview
  let summary := ("Results-driven professional with hands-on expertise in <b>".data)
    ++ skills_preview
    ++ ("</b>. Passionate about delivering high-quality, scalable solutions and continuously expanding technical skills. Proven track record of collaborating in fast-paced environments to meet and exceed project goals.".data)
  let summarySec := [Flowable.para ("Section".data) ("PROFESSIONAL SUMMARY".data),
                     Flowable.para ("Body".data) summary]
  let skillsSec := if cv_data.skills.isEmpty then []
                   else [Flowable.para ("Section".data) ("SKILLS".data),
                         Flowable.para ("Body".data)
                           (joinSep (" &nbsp;•&nbsp; ".data) (cv_data.skills.take 16))]
  let expSec := [Flowable.para ("Section".data) ("PROFESSIONAL EXPERIENCE".data)]
    ++ (cv_data.experience.take 5).flatMap (fun e =>
        [Flowable.para ("Body".data) (("<b>".data) ++ e.title ++ ("</b>".data))]
        ++ (if e.description.isEmpty then []
            else [Flowable.para ("Bullet".data) (("• ".data) ++ e.description)]))
  let eduSec := if cv_data.education.isEmpty then []
                else [Flowable.para ("Section".data) ("EDUCATION".data)]
                  ++ (cv_data.education.take 3).map (Flowable.para ("Body".data))
  nameP ++ contact ++ [Flowable.hr] ++ summarySec ++ skillsSec ++ expSec ++ eduSec

/-- Failure of the site renderer: the `s[0]` IndexError on an empty skill
string in `generate_portfolio`. -/
inductive RenderError where
  | indexError
deriving DecidableEq, Repr

/-- Static chunk 0 of the portfolio HTML template. -/
def pfC0 : Str := "<!DOCTYPE html>\n<html lang=\"en\">\n<head>\n  <meta charset=\"UTF-8\" />\n  <meta name=\"viewport\" content=\"width=device-width, initial-scale=1.0\"/>\n  <title>".data

/-- Static chunk 1 of the portfolio HTML template. -/
def pfC1 : Str := " — Portfolio</title>\n  <link rel=\"preconnect\" href=\"https://fonts.googleapis.com\"/>\n  <link href=\"https://fonts.googleapis.com/css2?family=Inter:wght@300;400;500;600;700&family=Syne:wght@700;800&display=swap\" rel=\"stylesheet\"/>\n  <style>\n    /* ─── reset & base ─── */\n    *, *::before, *::after \x7b box-sizing:border-box; margin:0; padding:0; \x7d\n    :root \x7b\n      --clr-bg:      #0f1117;\n      --clr-surface: #1a1d27;\n      --clr-accent:  #e94560;\n      --clr-accent2: #c23152;\n      --clr-text:    #e2e4e9;\n      --clr-muted:   #7a7f8e;\n      --font-head:   \x27Syne\x27, sans-serif;\n      --font-body:   \x27Inter\x27, sans-serif;\n    \x7d\n    html \x7b scroll-behavior:smooth; \x7d\n    body \x7b\n      font-family: var(--font-body);\n      background: var(--clr-bg);\n      color: var(--clr-text);\n      line-height: 1.6;\n      overflow-x: hidden;\n    \x7d\n\n    /* ─── nav ─── */\n    nav \x7b\n      position:fixed; top:0; width:100%; z-index:100;\n      background:rgba(15,17,23,.85);\n      backdrop-filter:blur(12px);\n      border-bottom:1px solid rgba(233,69,96,.15);\n      padding:.9rem 0;\n      transition: background .3s;\n    \x7d\n    .nav-inner \x7b\n      max-width:1100px; margin:0 auto; padding:0 1.5rem;\n      display:flex; justify-content:space-between; align-items:center;\n    \x7d\n    .nav-logo \x7b\n      font-family:var(--font-head); font-size:1.3rem;\n      color:#fff; text-decoration:none; letter-spacing:-0.5px;\n    \x7d\n    .nav-links a \x7b\n      color:var(--clr-muted); text-decoration:none;\n      margin-left:1.8rem; font-size:.85rem; font-weight:500;\n      letter-spacing:.5px; text-transform:uppercase;\n      transition:color .2s;\n    \x7d\n    .nav-links a:hover \x7b color:var(--clr-accent); \x7d\n\n    /* ─── hero ─── */\n    .hero \x7b\n      min-height:100vh;\n      display:flex; align-items:center; justify-content:center;\n      position:relative; overflow:hidden;\n      padding:7rem 1.5rem 4rem;\n    \x7d\n    .hero-bg \x7b\n      position:absolute; inset:0; z-index:0;\n      background:\n        radial-gradient(ellipse 80% 50% at 20% 80%, rgba(233,69,96,.12) 0%, transparent 60%),\n        radial-gradient(ellipse 60% 40% at 80% 20%, rgba(26,29,39,.8) 0%, transparent 70%);\n    \x7d\n    .hero-content \x7b\n      position:relative; z-index:1;\n      text-align:center; max-width:720px;\n    \x7d\n    .hero-content h1 \x7b\n      font-family:var(--font-head);\n      font-size:clamp(2.8rem,7vw,5.5rem);\n      font-weight:800; line-height:1.05;\n      letter-spacing:-2px; color:#fff;\n      margin-bottom:.6rem;\n    \x7d\n    .hero-content h1 span \x7b color:var(--clr-accent); \x7d\n    .hero-subtitle \x7b\n      color:var(--clr-muted); font-size:1.1rem; font-weight:300;\n      max-width:500px; margin:0 auto 2rem;\n    \x7d\n    .btn \x7b\n      display:inline-block; padding:.75rem 2rem;\n      background:var(--clr-accent); color:#fff;\n      border:none; border-radius:6px;\n      font-family:var(--font-body); font-size:.88rem;\n      font-weight:600; letter-spacing:.4px; text-transform:uppercase;\n      text-decoration:none; cursor:pointer;\n      transition:background .25s, transform .2s;\n    \x7d\n    .btn:hover \x7b background:var(--clr-accent2); transform:translateY(-2px); \x7d\n\n    /* ─── sections common ─── */\n    section \x7b padding:6rem 1.5rem; \x7d\n    .container \x7b max-width:1050px; margin:0 auto; \x7d\n    .section-label \x7b\n      font-size:.75rem; color:var(--clr-accent);\n      letter-spacing:3px; text-transform:uppercase;\n      font-weight:600; margin-bottom:.5rem;\n    \x7d\n    .section-title \x7b\n      font-family:var(--font-head); font-size:clamp(1.8rem,4vw,2.6rem);\n      font-weight:800; color:#fff; margin-bottom:2.5rem;\n      letter-spacing:-1px;\n    \x7d\n\n    /* ─── about ─── */\n    #about \x7b background:var(--clr-surface); \x7d\n    .about-grid \x7b\n      display:grid; grid-template-columns:1fr 1fr; gap:3rem;\n      align-items:center;\n    \x7d\n    .about-text p \x7b\n      color:var(--clr-muted); font-size:1rem; margin-bottom:1rem;\n    \x7d\n    .about-stats \x7b\n      display:grid; grid-template-columns:1fr 1fr; gap:1.2rem;\n    \x7d\n    .stat-card \x7b\n      background:var(--clr-bg); border:1px solid rgba(233,69,96,.15);\n      border-radius:10px; padding:1.4rem; text-align:center;\n    \x7d\n    .stat-card .num \x7b\n      font-family:var(--font-head); font-size:1.9rem;\n      color:var(--clr-accent); font-weight:800;\n    \x7d\n    .stat-card .label \x7b\n      color:var(--clr-muted); font-size:.78rem; margin-top:.2rem;\n      text-transform:uppercase; letter-spacing:1px;\n    \x7d\n\n    /* ─── skills ─── */\n    .skills-grid \x7b\n      display:grid;\n      grid-template-columns:repeat(auto-fill, minmax(140px,1fr));\n      gap:1rem;\n    \x7d\n    .skill-card \x7b\n      background:var(--clr-surface);\n      border:1px solid rgba(233,69,96,.1);\n      border-radius:10px; padding:1.3rem .8rem;\n      text-align:center; transition:transform .2s, border-color .2s;\n    \x7d\n    .skill-card:hover \x7b\n      transform:translateY(-3px);\n      border-color:var(--clr-accent);\n    \x7d\n    .skill-icon \x7b\n      width:36px; height:36px; border-radius:8px;\n      background:linear-gradient(135deg, var(--clr-accent), var(--clr-accent2));\n      color:#fff; font-weight:700; font-size:1rem;\n      display:flex; align-items:center; justify-content:center;\n      margin:0 auto .6rem;\n    \x7d\n    .skill-card span \x7b\n      font-size:.82rem; color:var(--clr-muted); font-weight:500;\n    \x7d\n\n    /* ─── experience timeline ─── */\n    #experience \x7b background:var(--clr-surface); \x7d\n    .timeline \x7b position:relative; padding-left:2rem; \x7d\n    .timeline::before \x7b\n      content:\x27\x27; position:absolute; left:.75rem; top:0; bottom:0;\n      width:2px; background:rgba(233,69,96,.25);\n    \x7d\n    .timeline-item \x7b position:relative; margin-bottom:2rem; \x7d\n    .timeline-dot \x7b\n      position:absolute; left:-1.3rem; top:.35rem;\n      width:12px; height:12px; border-radius:50%;\n      background:var(--clr-accent);\n      box-shadow:0 0 8px rgba(233,69,96,.4);\n    \x7d\n    .timeline-content \x7b\n      background:var(--clr-bg); border:1px solid rgba(233,69,96,.1);\n      border-radius:10px; padding:1.3rem 1.5rem;\n    \x7d\n    .timeline-content h3 \x7b\n      color:#fff; font-size:1rem; font-weight:600; margin-bottom:.3rem;\n    \x7d\n    .timeline-content p \x7b\n      color:var(--clr-muted); font-size:.85rem;\n    \x7d\n\n    /* ─── education ─── */\n    .edu-list \x7b\n      list-style:none; padding:0;\n    \x7d\n    .edu-list li \x7b\n      background:var(--clr-surface); border:1px solid rgba(233,69,96,.1);\n      border-radius:10px; padding:1rem 1.4rem; margin-bottom:.7rem;\n      color:var(--clr-muted); font-size:.9rem;\n    \x7d\n    .edu-list li::before \x7b\n      content:\x27🎓 \x27; \n    \x7d\n\n    /* ─── contact ─── */\n    #contact \x7b\n      background:linear-gradient(135deg, #12151f 0%, #1a1d27 100%);\n      text-align:center;\n    \x7d\n    .contact-info \x7b\n      display:flex; justify-content:center; gap:2.5rem;\n      flex-wrap:wrap; margin-top:1.5rem;\n    \x7d\n    .contact-item \x7b\n      color:var(--clr-muted); font-size:.9rem;\n    \x7d\n    .contact-item strong \x7b color:#fff; \x7d\n\n    /* ─── footer ─── */\n    footer \x7b\n      text-align:center; padding:2rem;\n      color:var(--clr-muted); font-size:.78rem;\n      border-top:1px solid rgba(255,255,255,.06);\n    \x7d\n\n    /* ─── responsive ─── */\n    @media (max-width:680px) \x7b\n      .about-grid \x7b grid-template-columns:1fr; \x7d\n      .nav-links a \x7b margin-left:.9rem; font-size:.75rem; \x7d\n      .skills-grid \x7b grid-template-columns:repeat(auto-fill, minmax(110px,1fr)); \x7d\n    \x7d\n\n    /* ─── animations ─── */\n    @keyframes fadeUp \x7b\n      from \x7b opacity:0; transform:translateY(24px); \x7d\n      to   \x7b opacity:1; transform:translateY(0); \x7d\n    \x7d\n    .fade-up \x7b animation:fadeUp .6s ease both; \x7d\n    .delay-1 \x7b animation-delay:.1s; \x7d\n    .delay-2 \x7b animation-delay:.2s; \x7d\n    .delay-3 \x7b animation-delay:.35s; \x7d\n  </style>\n</head>\n<body>\n\n<!-- NAV -->\n<nav>\n  <div class=\"nav-inner\">\n    <a href=\"#\" class=\"nav-logo\">".data

/-- Static chunk 2 of the portfolio HTML template. -/
def pfC2 : Str := "</a>\n    <div class=\"nav-links\">\n      <a href=\"#about\">About</a>\n      <a href=\"#skills\">Skills</a>\n      <a href=\"#experience\">Experience</a>\n      <a href=\"#contact\">Contact</a>\n    </div>\n  </div>\n</nav>\n\n<!-- HERO -->\n<section class=\"hero\">\n  <div class=\"hero-bg\"></div>\n  <div class=\"hero-content fade-up\">\n    <h1>Hi, I\x27m <span>".data

/-- Static chunk 3 of the portfolio HTML template. -/
def pfC3 : Str := "</span></h1>\n    <p class=\"hero-subtitle\">\n      A passionate professional crafting innovative solutions and delivering exceptional results.\n    </p>\n    <a href=\"#contact\" class=\"btn\">Get In Touch</a>\n  </div>\n</section>\n\n<!-- ABOUT -->\n<section id=\"about\">\n  <div class=\"container\">\n    <div class=\"about-grid\">\n      <div class=\"about-text fade-up\">\n        <p class=\"section-label\">About Me</p>\n        <h2 class=\"section-title\">Building things<br/>that matter.</h2>\n        <p>\n          Results-driven professional with deep expertise in ".data

/-- Static chunk 4 of the portfolio HTML template. -/
def pfC4 : Str := ".\n          I thrive on solving complex problems and turning ideas into polished, scalable products.\n        </p>\n        <p>\n          Passionate about continuous learning, clean code, and creating experiences\n          that delight users. Always looking for the next challenge.\n        </p>\n      </div>\n      <div class=\"about-stats fade-up delay-2\">\n        <div class=\"stat-card\">\n          <div class=\"num\">".data

/-- Static chunk 5 of the portfolio HTML template. -/
def pfC5 : Str := "</div>\n          <div class=\"label\">Skills</div>\n        </div>\n        <div class=\"stat-card\">\n          <div class=\"num\">".data

/-- Static chunk 6 of the portfolio HTML template. -/
def pfC6 : Str := "</div>\n          <div class=\"label\">Roles</div>\n        </div>\n        <div class=\"stat-card\">\n          <div class=\"num\">".data

/-- Static chunk 7 of the portfolio HTML template. -/
def pfC7 : Str := "</div>\n          <div class=\"label\">Education</div>\n        </div>\n        <div class=\"stat-card\">\n          <div class=\"num\">∞</div>\n          <div class=\"label\">Curiosity</div>\n        </div>\n      </div>\n    </div>\n  </div>\n</section>\n\n<!-- SKILLS -->\n<section id=\"skills\">\n  <div class=\"container\">\n    <p class=\"section-label fade-up\">Expertise</p>\n    <h2 class=\"section-title fade-up delay-1\">Skills & Tools</h2>\n    <div class=\"skills-grid fade-up delay-2\">\n".data

/-- Static chunk 8 of the portfolio HTML template. -/
def pfC8 : Str := "\n    </div>\n  </div>\n</section>\n\n<!-- EXPERIENCE -->\n<section id=\"experience\">\n  <div class=\"container\">\n    <p class=\"section-label fade-up\">Career</p>\n    <h2 class=\"section-title fade-up delay-1\">Experience</h2>\n    <div class=\"timeline fade-up delay-2\">\n".data

/-- Static chunk 9 of the portfolio HTML template. -/
def pfC9 : Str := "\n    </div>\n  </div>\n</section>\n\n<!-- EDUCATION -->\n<section id=\"education\">\n  <div class=\"container\">\n    <p class=\"section-label fade-up\">Learning</p>\n    <h2 class=\"section-title fade-up delay-1\">Education</h2>\n    <ul class=\"edu-list fade-up delay-2\">\n".data

/-- Static chunk 10 of the portfolio HTML template. -/
def pfC10 : Str := "\n    </ul>\n  </div>\n</section>\n\n<!-- CONTACT -->\n<section id=\"contact\">\n  <div class=\"container\">\n    <p class=\"section-label fade-up\">Let\x27s connect</p>\n    <h2 class=\"section-title fade-up delay-1\">Get In Touch</h2>\n    <p class=\"fade-up delay-2\" style=\"color:var(--clr-muted); max-width:480px; margin:0 auto;\">\n      Interested in working together or just want to say hi? I\x27d love to hear from you.\n    </p>\n    <div class=\"contact-info fade-up delay-3\">\n      <div class=\"contact-item\">📧 <strong>".data

/-- Static chunk 11 of the portfolio HTML template. -/
def pfC11 : Str := "</strong></div>\n      ".data

/-- Static chunk 12 of the portfolio HTML template. -/
def pfC12 : Str := "\n    </div>\n  </div>\n</section>\n\n<!-- FOOTER -->\n<footer>\n  <p>&copy; ".data

/-- Static chunk 13 of the portfolio HTML template. -/
def pfC13 : Str := " ".data

/-- Static chunk 14 of the portfolio HTML template. -/
def pfC14 : Str := " — Portfolio generated by CareerBoost AI</p>\n</footer>\n\n</body>\n</html>".data

/-- Static pieces of the skill-card template of `generate_portfolio`. -/
def skillCardT1 : Str :=
  "            <div class=\"skill-card\">\n              <div class=\"skill-icon\">".data

def skillCardT2 : Str := "</div>\n              <span>".data

def skillCardT3 : Str := "</span>\n            </div>".data

/-- One skill card: reads `s[0].upper()`, raising IndexError on an empty
skill string. -/
def skillCard (s : Str) : Except RenderError Str :=
  match s with
  | [] => .error .indexError
  | c :: _ => .ok (skillCardT1 ++ [c.toUpper] ++ skillCardT2 ++ s ++ skillCardT3)

/-- The skill-card list comprehension, evaluated left to right, stopping at
the first raised error. -/
def mapCards : List Str → Except RenderError (List Str)
  | [] => .ok []
  | s :: rest =>
    match skillCard s with
    | .error e => .error e
    | .ok c =>
      match mapCards rest with
      | .error e => .error e
      | .ok cs => .ok (c :: cs)

/-- Static pieces of the experience timeline-item template. -/
def expItemT1 : Str :=
  "            <div class=\"timeline-item\">\n              <div class=\"timeline-dot\"></div>\n              <div class=\"timeline-content\">\n                <h3>".data

def expItemT2 : Str := "</h3>\n                <p>".data

def expItemT3 : Str := "</p>\n              </div>\n            </div>".data

/-- One experience timeline item (both dict keys are always present on the
profiles this code receives). -/
def expItem (e : ExpEntry) : Str :=
  expItemT1 ++ e.title ++ expItemT2 ++ e.description ++ expItemT3

/-- One education list item. -/
def eduItem (s : Str) : Str := ("            <li>".data) ++ s ++ ("</li>".data)

/-- The conditional phone block of the contact section. -/
def phoneBlock (phone : Str) : Str :=
  if phone.isEmpty then []
  else ("<div class=\x27contact-item\x27>📱 <strong>".data) ++ phone ++ ("</strong></div>".data)

/-- The full portfolio HTML document assembled from the template chunks and
the interpolated values. -/
def portfolioHtml (nm email phone : Str) (skills : List Str) (experience : List ExpEntry)
    (education : List Str) (skill_cards : Str) (yearStr : Str) : Str :=
  pfC0 ++ nm ++ pfC1 ++ nm ++ pfC2 ++ nm ++ pfC3
    ++ joinSep (", ".data) (skills.take 3) ++ pfC4
    ++ natDigits skills.length ++ pfC5
    ++ natDigits experience.length ++ pfC6
    ++ natDigits education.length ++ pfC7
    ++ skill_cards ++ pfC8
    ++ joinSep ("\n".data) ((experience.take 5).map expItem) ++ pfC9
    ++ joinSep ("\n".data) ((education.take 4).map eduItem) ++ pfC10
    ++ email ++ pfC11
    ++ phoneBlock phone ++ pfC12
    ++ yearStr ++ pfC13 ++ nm ++ pfC14

/-- The README.md content written into the portfolio ZIP. -/
def portfolioReadme (nm today : Str) : Str :=
  ("# ".data) ++ nm ++ (" — Portfolio\n\nGenerated by CareerBoost AI on ".data) ++ today
  ++ (".\n\n## Deploy (all free)\n1. **GitHub Pages** — push to a repo, enable Pages\n2. **Netlify** — drag & drop the folder\n3. **Vercel** — connect your GitHub repo\n".data)

/-- `generate_portfolio`: builds the skill cards (the only failing
operation, via `s[0]`), assembles the HTML and README, and returns the ZIP
as its list of named entries (the byte-level ZIP encoding is the
out-of-scope archive capability; `today`/`yearStr` stand for
`datetime.datetime.now()`). -/
def generate_portfolio (today yearStr : Str) (cv_data : CVData) :
    Except RenderError (List (Str × Str)) :=
  match mapCards (cv_data.skills.take 16) with
  | .error e => .error e
  | .ok cards =>
    let skill_cards := joinSep ("\n".data) cards
    let html := portfolioHtml cv_data.name cv_data.email cv_data.phone cv_data.skills
      cv_data.experience cv_data.education skill_cards yearStr
    .ok [("index.html".data, html), ("README.md".data, portfolioReadme cv_data.name today)]

/-- C3 test input: a bare `Experience` heading (no following `history`). -/
def c3A : Str := "Experience\nDesigning systems".data

/-- C3 test input: an experience header with no following content lines. -/
def c3B : Str := "Work Experience".data

/-- C3 test input: a section word not preceded by a newline. -/
def c3C : Str := "Work Experience\nBuilt large systems education".data

/-- C1 counterexample inputs: the job text yields exactly 40 job keywords
(no years-pattern matches) of which the CV text contains exactly 23, so
the program computes round((23/40)*100) on floats. -/
def c1job : Str :=
  "We want typescript and angular and vue.js and express and nuxt and svelte and redis and elasticsearch and cassandra and docker and kubernetes and terraform and ansible and azure and jenkins and nlp and tensorflow and pytorch and pandas and numpy and matplotlib and html and bootstrap and flask and fastapi and laravel and graphql and microservices and websocket and scrum and kanban and jira and confluence and linux and powershell and rust and kotlin and flutter and xamarin and kafka".data

def c1cv : CVData :=
  ⟨"I have used typescript and angular and vue.js and express and nuxt and svelte and redis and elasticsearch and cassandra and docker and kubernetes and terraform and ansible and azure and jenkins and nlp and tensorflow and pytorch and pandas and numpy and matplotlib and html and bootstrap".data,
   [], [], [], [], [], []⟩

/-- C2 witness inputs. -/
def w2cv : CVData := ⟨"I use Python daily".data, [], [], [], [], [], []⟩

def w2job : Str := "Need python and terraform".data

/-- C5 witness input. -/
def w5text : Str := "I know python and docker".data

/-- C10 counterexample profile: sixteen non-empty skills followed by an
empty skill string in position 17. -/
def c10profile : CVData :=
  ⟨[], [], [], [],
   ((["a", "b", "c", "d", "e", "f", "g", "h", "i", "j", "k", "l", "m", "n", "o", "p"]
     : List String).map String.data) ++ [[]],
   [], []⟩

/-- C10 witness profiles. -/
def w10bad : CVData := ⟨[], [], [], [], [[]], [], []⟩

def w10good : CVData := ⟨[], [], [], [], [], [], []⟩

set_option maxRecDepth 4000

theorem roundHalfEven_le_100 (m n : Nat) (hmn : m ≤ n) (hn : 0 < n) :
    roundHalfEven (100 * m) n ≤ 100 := by
  have hq : 100 * m / n ≤ 100 := by
    calc 100 * m / n ≤ 100 * n / n :=
          Nat.div_le_div_right (Nat.mul_le_mul_left _ hmn)
    _ = 100 := Nat.mul_div_cancel 100 hn
  have key : 100 * m % n ≠ 0 → 100 * m / n < 100 := by
    intro hr
    rcases Nat.lt_or_ge (100 * m / n) 100 with h | h
    · exact h
    · exfalso
      have h1 : 100 * n ≤ 100 * m := by
        have := (Nat.le_div_iff_mul_le hn).mp h
        omega
      have h2 : m = n := le_antisymm hmn (by omega)
      subst h2
      exact hr (Nat.mul_mod_left 100 m ▸ rfl)
  unfold roundHalfEven
  simp only []
  split
  · exact hq
  · next h1 =>
    split
    · next h2 =>
      have : 100 * m % n ≠ 0 := by omega
      have := key this
      omega
    · next h2 =>
      split
      · exact hq
      · have : 100 * m % n ≠ 0 := by omega
        have := key this
        omega

theorem clampScore_of_le {x : Nat} (h : x ≤ 100) : clampScore x = x := by
  unfold clampScore
  omega

theorem dedupFirstAux_of_nodup :
    ∀ (l seen : List Str), l.Nodup → (∀ x ∈ l, x ∉ seen) → dedupFirstAux seen l = l := by
  intro l
  induction l with
  | nil => intro seen _ _; rfl
  | cons x rest ih =>
    intro seen hnd hdis
    unfold dedupFirstAux
    rw [if_neg (hdis x (List.mem_cons_self x rest))]
    congr 1
    apply ih _ hnd.of_cons
    intro y hy
    simp only [List.mem_cons, not_or]
    exact ⟨fun hxy => (List.nodup_cons.mp hnd).1 (hxy ▸ hy),
           hdis y (List.mem_cons_of_mem x hy)⟩

theorem dedupFirst_of_nodup {l : List Str} (h : l.Nodup) : dedupFirst l = l :=
  dedupFirstAux_of_nodup l [] h (by simp)

theorem strLeB_total : ∀ a b : Str, strLeB a b = true ∨ strLeB b a = true := by
  intro a
  induction a with
  | nil => intro b; left; cases b <;> rfl
  | cons c cs ih =>
    intro b
    cases b with
    | nil => right; rfl
    | cons d ds =>
      rcases lt_trichotomy c d with h | h | h
      · left; simp [strLeB, h]
      · subst h
        rcases ih ds with h2 | h2
        · left; simp [strLeB, h2]
        · right; simp [strLeB, h2]
      · right; simp [strLeB, h]

theorem strLeB_trans : ∀ a b c : Str,
    strLeB a b = true → strLeB b c = true → strLeB a c = true := by
  intro a
  induction a with
  | nil => intro b c _ _; rfl
  | cons x xs ih =>
    intro b c h1 h2
    cases b with
    | nil => simp [strLeB] at h1
    | cons y ys =>
      cases c with
      | nil => simp [strLeB] at h2
      | cons z zs =>
        by_cases hxy : x < y
        · by_cases hyz : y < z
          · simp [strLeB, lt_trans hxy hyz]
          · by_cases hyz2 : y = z
            · subst hyz2; simp [strLeB, hxy]
            · simp [strLeB, hyz, hyz2] at h2
        · by_cases hxy2 : x = y
          · subst hxy2
            simp [strLeB, hxy] at h1
            by_cases hyz : x < z
            · simp [strLeB, hyz]
            · by_cases hyz2 : x = z
              · subst hyz2
                simp [strLeB, hxy] at h2 ⊢
                exact ih ys zs h1 h2
              · simp [strLeB, hyz, hyz2] at h2
          · simp [strLeB, hxy, hxy2] at h1

instance : IsTotal Str strLe := ⟨fun a b => strLeB_total a b⟩

instance : IsTrans Str strLe := ⟨fun a b c h1 h2 => strLeB_trans a b c h1 h2⟩

theorem kwNodup : SKILL_KEYWORDS.Nodup := by decide

theorem kwTitleLower : ∀ kw ∈ SKILL_KEYWORDS, pyLower (pyTitle kw) = kw := by decide

theorem kwTitleNeNil : ∀ kw ∈ SKILL_KEYWORDS, pyTitle kw ≠ [] := by decide

theorem analyze_ats_matched (cv : CVData) (job : Str) :
    (analyze_ats cv job).matched_skills =
      (_extract_job_keywords (pyLower job)).filter
        (fun kw => strContains kw (pyLower cv.raw_text)) := by
  simp [analyze_ats, ats_classify, List.partition_eq_filter_filter]

theorem analyze_ats_missing (cv : CVData) (job : Str) :
    (analyze_ats cv job).missing_skills =
      ((_extract_job_keywords (pyLower job)).filter
        (fun kw => !(strContains kw (pyLower cv.raw_text)))).take 10 := by
  simp [analyze_ats, ats_classify, List.partition_eq_filter_filter, Function.comp_def]

theorem analyze_ats_tips (cv : CVData) (job : Str) :
    (analyze_ats cv job).tips =
      _generate_tips cv
        ((_extract_job_keywords (pyLower job)).filter
          (fun kw => !(strContains kw (pyLower cv.raw_text))))
        (pyLower cv.raw_text) := by
  simp [analyze_ats, ats_classify, List.partition_eq_filter_filter, Function.comp_def]

theorem analyze_ats_score (cv : CVData) (job : Str) :
    (analyze_ats cv job).score =
      clampScore (if (_extract_job_keywords (pyLower job)).isEmpty then 50
        else pyFloatRound100
          ((_extract_job_keywords (pyLower job)).filter
            (fun kw => strContains kw (pyLower cv.raw_text))).length
          (_extract_job_keywords (pyLower job)).length) := by
  simp [analyze_ats, ats_classify, List.partition_eq_filter_filter]

theorem roundHalfEven_le_half_up (a b : Nat) (hb : 0 < b) :
    roundHalfEven a b ≤ (2 * a + b) / (2 * b) := by
  have ha : b * (a / b) + a % b = a := Nat.div_add_mod a b
  have hr : a % b < b := Nat.mod_lt _ hb
  have key : ∀ (q r : Nat), (2 * (b * q + r) + b) / (2 * b) = (2 * r + b) / (2 * b) + q := by
    intro q r
    have heq : 2 * (b * q + r) + b = (2 * r + b) + q * (2 * b) := by ring
    rw [heq, Nat.add_mul_div_right _ _ (by omega : 0 < 2 * b)]
  have hsplit : (2 * a + b) / (2 * b) = (2 * (a % b) + b) / (2 * b) + a / b := by
    conv_lhs => rw [← ha]
    exact key (a / b) (a % b)
  simp only [roundHalfEven]
  by_cases hcase : b ≤ 2 * (a % b)
  · have h1 : (2 * (a % b) + b) / (2 * b) = 1 :=
      Nat.div_eq_of_lt_le (by omega) (by omega)
    rw [hsplit, h1]
    split
    · omega
    · split
      · omega
      · split <;> omega
  · have h0 : (2 * (a % b) + b) / (2 * b) = 0 := Nat.div_eq_of_lt (by omega)
    rw [hsplit, h0]
    split
    · omega
    · split
      · omega
      · split <;> omega

theorem roundHalfEven_one (a : Nat) : roundHalfEven a 1 = a := by
  simp [roundHalfEven, Nat.mod_one, Nat.div_one]

theorem roundHalfEven_le_div_succ (a b : Nat) (hb : 0 < b) :
    roundHalfEven a b ≤ a / b + 1 := by
  have h1 := roundHalfEven_le_half_up a b hb
  have h2 : (2 * a + b) ≤ 2 * (a + b) := by omega
  have h3 : (2 * a + b) / (2 * b) ≤ (2 * (a + b)) / (2 * b) := Nat.div_le_div_right h2
  have h4 : (2 * (a + b)) / (2 * b) = (a + b) / b :=
    Nat.mul_div_mul_left (a + b) b (by omega)
  have h5 : (a + b) / b = a / b + 1 := Nat.add_div_right a hb
  omega

theorem log2Fuel_lt : ∀ (fuel n k : Nat), n < 2 ^ k → 0 < k → log2Fuel fuel n < k := by
  intro fuel
  induction fuel with
  | zero => intro n k _ hk; simpa [log2Fuel] using hk
  | succ f ih =>
    intro n k h hk
    simp only [log2Fuel]
    split
    · exact hk
    · next hn =>
      have hk2 : 2 ≤ k := by
        by_contra hc
        have hk1 : k = 1 := by omega
        rw [hk1] at h
        simp at h
        omega
      have hpow : 2 ^ k = 2 ^ (k - 1) * 2 := by
        rw [← pow_succ]
        congr 1
        omega
      have hdiv : n / 2 < 2 ^ (k - 1) := by
        rw [Nat.div_lt_iff_lt_mul (by omega : 0 < 2)]
        omega
      have := ih (n / 2) (k - 1) hdiv (by omega)
      omega

theorem fl64Div_shift_ge (m n : Nat) : 52 ≤ (fl64Div m n).2 := by
  simp only [fl64Div]
  exact le_min (by omega) (by omega)

theorem fl64Div_sig_le (m n : Nat) (hmn : m ≤ n) (hn : 0 < n) :
    (fl64Div m n).1 ≤ 2 ^ (fl64Div m n).2 := by
  simp only [fl64Div]
  have h1 := roundHalfEven_le_half_up (m * 2 ^ min (52 + leastShift n m n) 1074) n hn
  have hmul : m * 2 ^ min (52 + leastShift n m n) 1074
      ≤ n * 2 ^ min (52 + leastShift n m n) 1074 :=
    Nat.mul_le_mul_right _ hmn
  have h2 : (2 * (m * 2 ^ min (52 + leastShift n m n) 1074) + n) / (2 * n)
      ≤ (2 * (n * 2 ^ min (52 + leastShift n m n) 1074) + n) / (2 * n) :=
    Nat.div_le_div_right (by omega)
  have h3 : (2 * (n * 2 ^ min (52 + leastShift n m n) 1074) + n) / (2 * n)
      = 2 ^ min (52 + leastShift n m n) 1074 := by
    have heq : 2 * (n * 2 ^ min (52 + leastShift n m n) 1074) + n
        = n + 2 ^ min (52 + leastShift n m n) 1074 * (2 * n) := by ring
    rw [heq, Nat.add_mul_div_right _ _ (by omega : 0 < 2 * n),
      Nat.div_eq_of_lt (by omega)]
    omega
  omega

theorem fl64Mul100_round_le (s shift : Nat) (h52 : 52 ≤ shift) (hs : s ≤ 2 ^ shift) :
    roundHalfEven (fl64Mul100 s shift).1 (2 ^ (fl64Mul100 s shift).2) ≤ 100 := by
  simp only [fl64Mul100]
  have hp : 0 < (2:Nat) ^ shift := by positivity
  have hN : s * 100 ≤ 100 * 2 ^ shift := by omega
  by_cases hNsmall : s * 100 < 2 ^ 53
  · rw [if_pos hNsmall, pow_zero, roundHalfEven_one, Nat.sub_zero]
    have h1 := roundHalfEven_le_half_up (s * 100) (2 ^ shift) hp
    have hle : 2 * (s * 100) + 2 ^ shift ≤ 201 * 2 ^ shift := by omega
    have h201 : (201 * 2 ^ shift) / (2 * 2 ^ shift) = 100 := by
      have heq : 201 * 2 ^ shift = 2 ^ shift + 100 * (2 * 2 ^ shift) := by ring
      rw [heq, Nat.add_mul_div_right _ _ (by omega : 0 < 2 * 2 ^ shift),
        Nat.div_eq_of_lt (by omega)]
    have h2 : (2 * (s * 100) + 2 ^ shift) / (2 * 2 ^ shift)
        ≤ (201 * 2 ^ shift) / (2 * 2 ^ shift) := Nat.div_le_div_right hle
    omega
  · rw [if_neg hNsmall]
    have hNbig : 2 ^ 53 ≤ s * 100 := by omega
    have hlog : natLog2 (s * 100) < shift + 7 := by
      apply log2Fuel_lt
      · have hpow : (2:Nat) ^ (shift + 7) = 128 * 2 ^ shift := by
          rw [pow_add]; ring
        omega
      · omega
    have hk2le : natLog2 (s * 100) - 52 ≤ shift - 46 := by omega
    have hk2shift : natLog2 (s * 100) - 52 ≤ shift := by omega
    have hT3 : 3 ≤ 2 ^ (shift - (natLog2 (s * 100) - 52)) := by
      calc (3:Nat) ≤ 2 ^ 2 := by norm_num
      _ ≤ 2 ^ (shift - (natLog2 (s * 100) - 52)) :=
        Nat.pow_le_pow_right (by norm_num) (by omega)
    have hTp : 0 < (2:Nat) ^ (shift - (natLog2 (s * 100) - 52)) := by positivity
    have hk2p : 0 < (2:Nat) ^ (natLog2 (s * 100) - 52) := by positivity
    have hs2 : roundHalfEven (s * 100) (2 ^ (natLog2 (s * 100) - 52))
        ≤ 100 * 2 ^ (shift - (natLog2 (s * 100) - 52)) + 1 := by
      have h1 := roundHalfEven_le_div_succ (s * 100) (2 ^ (natLog2 (s * 100) - 52)) hk2p
      have h2 : s * 100 / 2 ^ (natLog2 (s * 100) - 52)
          ≤ (100 * 2 ^ shift) / 2 ^ (natLog2 (s * 100) - 52) :=
        Nat.div_le_div_right hN
      have h3 : (100 * 2 ^ shift) / 2 ^ (natLog2 (s * 100) - 52)
          = 100 * 2 ^ (shift - (natLog2 (s * 100) - 52)) := by
        have heq : 100 * 2 ^ shift
            = 100 * 2 ^ (shift - (natLog2 (s * 100) - 52))
              * 2 ^ (natLog2 (s * 100) - 52) := by
          rw [mul_assoc, ← pow_add, Nat.sub_add_cancel hk2shift]
        rw [heq, Nat.mul_div_cancel _ hk2p]
      omega
    have hfin := roundHalfEven_le_half_up
      (roundHalfEven (s * 100) (2 ^ (natLog2 (s * 100) - 52)))
      (2 ^ (shift - (natLog2 (s * 100) - 52))) hTp
    have h201 : 2 * roundHalfEven (s * 100) (2 ^ (natLog2 (s * 100) - 52))
          + 2 ^ (shift - (natLog2 (s * 100) - 52))
        ≤ 201 * 2 ^ (shift - (natLog2 (s * 100) - 52)) + 2 := by omega
    have hdivfin : (201 * 2 ^ (shift - (natLog2 (s * 100) - 52)) + 2)
        / (2 * 2 ^ (shift - (natLog2 (s * 100) - 52))) = 100 := by
      have heq : 201 * 2 ^ (shift - (natLog2 (s * 100) - 52)) + 2
          = (2 ^ (shift - (natLog2 (s * 100) - 52)) + 2)
            + 100 * (2 * 2 ^ (shift - (natLog2 (s * 100) - 52))) := by ring
      rw [heq,
        Nat.add_mul_div_right _ _
          (by omega : 0 < 2 * 2 ^ (shift - (natLog2 (s * 100) - 52))),
        Nat.div_eq_of_lt (by omega)]
    have hmono : (2 * roundHalfEven (s * 100) (2 ^ (natLog2 (s * 100) - 52))
          + 2 ^ (shift - (natLog2 (s * 100) - 52)))
          / (2 * 2 ^ (shift - (natLog2 (s * 100) - 52)))
        ≤ (201 * 2 ^ (shift - (natLog2 (s * 100) - 52)) + 2)
          / (2 * 2 ^ (shift - (natLog2 (s * 100) - 52))) :=
      Nat.div_le_div_right h201
    omega

theorem pyFloatRound100_le_100 (m n : Nat) (hmn : m ≤ n) (hn : 0 < n) :
    pyFloatRound100 m n ≤ 100 := by
  unfold pyFloatRound100
  split
  · omega
  · exact fl64Mul100_round_le _ _ (fl64Div_shift_ge m n) (fl64Div_sig_le m n hmn hn)

/-- C1 counterexample: a reachable profile/job pair with 40 job keywords of
which 23 match.  The program evaluates `round((23/40)*100)` in binary64
floats: `23/40` rounds to slightly below 0.575, the product to slightly
below 57.5, and `round` returns 57 — while `round` of the exact rational
value `57.5` (half to even, and also half up) is 58.  So the score does not
equal `round(100 * |matched| / |job_keywords|)` read over exact arithmetic,
refuting the claim as stated. -/
theorem spec_C1_counterexample :
    (_extract_job_keywords (pyLower c1job)).length = 40
    ∧ (analyze_ats c1cv c1job).matched_skills.length = 23
    ∧ (analyze_ats c1cv c1job).score = 57
    ∧ roundHalfEven (100 * 23) 40 = 58
    ∧ (analyze_ats c1cv c1job).score ≠ roundHalfEven
        (100 * (analyze_ats c1cv c1job).matched_skills.length)
        (_extract_job_keywords (pyLower c1job)).length := by
  refine ⟨by decide, by decide, by decide, by decide, by decide⟩

/-- C1 amended: for every profile and job text, the score equals
`round((|matched| / |job_keywords|) * 100)` evaluated with the source's
IEEE-754 double-precision semantics (`pyFloatRound100`, which can differ by
one from rounding the exact rational at ties) when the extracted
`job_keywords` list is non-empty, equals the neutral default 50 when it is
empty, and in all cases lies in `[0, 100]`. -/
theorem spec_C1_score_float_formula_and_bounds (cv : CVData) (job : Str) :
    ((analyze_ats cv job).score =
      if (_extract_job_keywords (pyLower job)).isEmpty then 50
      else pyFloatRound100 (analyze_ats cv job).matched_skills.length
        (_extract_job_keywords (pyLower job)).length)
    ∧ 0 ≤ (analyze_ats cv job).score ∧ (analyze_ats cv job).score ≤ 100 := by
  rw [analyze_ats_score, analyze_ats_matched]
  by_cases h : (_extract_job_keywords (pyLower job)).isEmpty
  · simp only [if_pos h]
    refine ⟨?_, Nat.zero_le _, ?_⟩ <;> simp [clampScore]
  · simp only [if_neg h]
    have hne : _extract_job_keywords (pyLower job) ≠ [] := by
      intro hc; rw [hc] at h; exact h rfl
    have hpos : 0 < (_extract_job_keywords (pyLower job)).length :=
      List.length_pos.mpr hne
    have hle : ((_extract_job_keywords (pyLower job)).filter
        (fun kw => strContains kw (pyLower cv.raw_text))).length
        ≤ (_extract_job_keywords (pyLower job)).length :=
      List.length_filter_le _ _
    have h100 := pyFloatRound100_le_100 _ _ hle hpos
    exact ⟨clampScore_of_le h100, Nat.zero_le _, by rw [clampScore_of_le h100]; exact h100⟩

/-- C2: the job-keyword list is the vocabulary terms contained in the
lowered job text in vocabulary order followed by one synthetic
`<N>+ years experience` keyword per regex match; each keyword is classified
by substring presence in the lowered raw CV text; the matched list and the
pre-truncation missing list are order-preserving complementary filters of
`job_keywords` that partition it with no overlap. -/
theorem spec_C2_keywords_and_partition (cv : CVData) (job : Str) :
    _extract_job_keywords (pyLower job)
      = SKILL_KEYWORDS.filter (fun kw => strContains kw (pyLower job))
        ++ (findYears (pyLower job)).map (fun g => g ++ ("+ years experience".data))
    ∧ (analyze_ats cv job).matched_skills
      = (_extract_job_keywords (pyLower job)).filter
          (fun kw => strContains kw (pyLower cv.raw_text))
    ∧ (ats_classify (_extract_job_keywords (pyLower job)) (pyLower cv.raw_text)).2
      = (_extract_job_keywords (pyLower job)).filter
          (fun kw => !(strContains kw (pyLower cv.raw_text)))
    ∧ List.Perm
        ((analyze_ats cv job).matched_skills
          ++ (ats_classify (_extract_job_keywords (pyLower job)) (pyLower cv.raw_text)).2)
        (_extract_job_keywords (pyLower job))
    ∧ List.Sublist (analyze_ats cv job).matched_skills (_extract_job_keywords (pyLower job))
    ∧ List.Sublist
        (ats_classify (_extract_job_keywords (pyLower job)) (pyLower cv.raw_text)).2
        (_extract_job_keywords (pyLower job))
    ∧ ∀ k, k ∈ (analyze_ats cv job).matched_skills →
        k ∉ (ats_classify (_extract_job_keywords (pyLower job)) (pyLower cv.raw_text)).2 := by
  have hsnd : (ats_classify (_extract_job_keywords (pyLower job)) (pyLower cv.raw_text)).2
      = (_extract_job_keywords (pyLower job)).filter
          (fun kw => !(strContains kw (pyLower cv.raw_text))) := by
    simp [ats_classify, List.partition_eq_filter_filter, Function.comp_def]
  refine ⟨rfl, analyze_ats_matched cv job, hsnd, ?_, ?_, ?_, ?_⟩
  · rw [analyze_ats_matched, hsnd]
    exact List.filter_append_perm _ _
  · rw [analyze_ats_matched]
    exact List.filter_sublist _
  · rw [hsnd]
    exact List.filter_sublist _
  · intro k hk1 hk2
    rw [analyze_ats_matched] at hk1
    rw [hsnd] at hk2
    have h1 := (List.mem_filter.mp hk1).2
    have h2 := (List.mem_filter.mp hk2).2
    simp at h1 h2
    exact absurd h1 (by simp [h2])

/-- C2 witness: a matched keyword is not in the pre-truncation missing
list, at a concrete profile and job. -/
theorem spec_C2_witness :
    ("python".data : Str)
      ∉ (ats_classify (_extract_job_keywords (pyLower w2job)) (pyLower w2cv.raw_text)).2 :=
  (spec_C2_keywords_and_partition w2cv w2job).2.2.2.2.2.2 ("python".data) (by decide)

theorem ite_append_right {c : Prop} [Decidable c] (t : List Str) (x : Str) :
    (if c then t else t ++ [x]) = t ++ (if c then [] else [x]) := by
  split <;> simp

theorem ite_append_left {c : Prop} [Decidable c] (t : List Str) (x : Str) :
    (if c then t ++ [x] else t) = t ++ (if c then [x] else []) := by
  split <;> simp

/-- C6: tips are emitted in the fixed rule order — one tip per skill for the
first four missing skills (resource-map lookup with a generic fallback),
then the Projects, quantify-achievements, certifications, strong-verbs and
expand-skills tips, each conditional on its trigger — and the final list is
the first 8 tips of this stable emission order. -/
theorem spec_C6_tips_order (cv : CVData) (missing : List Str) (cv_lower : Str) :
    _generate_tips cv missing cv_lower =
      ((missing.take 4).map tipForSkill
        ++ (if strContains ("project".data) cv_lower then [] else [projectsTip])
        ++ (if achievementWords.any (fun v => strContains v cv_lower) then [] else [quantifyTip])
        ++ (if strContains ("certification".data) cv_lower
              || strContains ("certified".data) cv_lower then [] else [certificationsTip])
        ++ (if actionVerbs.any (fun v => strContains v cv_lower) then [] else [verbsTip])
        ++ (if cv.skills.length < 6 then [expandSkillsTip] else [])).take 8
    ∧ (_generate_tips cv missing cv_lower).length ≤ 8 := by
  constructor
  · simp only [_generate_tips]
    by_cases h1 : strContains ("project".data) cv_lower <;>
    by_cases h2 : achievementWords.any (fun v => strContains v cv_lower) <;>
    by_cases h3 : strContains ("certification".data) cv_lower
        || strContains ("certified".data) cv_lower <;>
    by_cases h4 : actionVerbs.any (fun v => strContains v cv_lower) <;>
    by_cases h5 : cv.skills.length < 6 <;>
    simp [h1, h2, h3, h4, h5]
  · simp only [_generate_tips]
    exact List.length_take_le 8 _

/-- C7: the missing-skill list of the compatibility result has at most 10
entries and preserves job-keyword order; the tips list has at most 8
entries; the roadmap has at most 8 entries, covering exactly the first 8
missing skills in input order. -/
theorem spec_C7_truncation_bounds (cv : CVData) (job : Str) (missing_skills : List Str) :
    (analyze_ats cv job).missing_skills.length ≤ 10
    ∧ List.Sublist (analyze_ats cv job).missing_skills (_extract_job_keywords (pyLower job))
    ∧ (analyze_ats cv job).tips.length ≤ 8
    ∧ (roadmapEntries missing_skills).length ≤ 8
    ∧ (roadmapEntries missing_skills).map RoadmapEntry.skill = missing_skills.take 8 := by
  refine ⟨?_, ?_, ?_, ?_, ?_⟩
  · rw [analyze_ats_missing]
    exact List.length_take_le 10 _
  · rw [analyze_ats_missing]
    exact List.Sublist.trans (List.take_sublist 10 _) (List.filter_sublist _)
  · rw [analyze_ats_tips]
    simp only [_generate_tips]
    exact List.length_take_le 8 _
  · simp only [roadmapEntries, List.length_map, List.enum_length]
    exact List.length_take_le 8 _
  · simp only [roadmapEntries, List.map_map]
    have : (RoadmapEntry.skill ∘ fun p : Nat × Str => roadmapEntryFor (p.1 + 1) p.2)
        = Prod.snd := by
      funext p
      rfl
    rw [this]
    exact List.enum_map_snd _

theorem kwTitleInj : ∀ x ∈ SKILL_KEYWORDS, ∀ y ∈ SKILL_KEYWORDS,
    pyTitle x = pyTitle y → x = y := by
  intro x hx y hy h
  have h1 := kwTitleLower x hx
  have h2 := kwTitleLower y hy
  rw [← h1, ← h2, h]

theorem extract_found_nodup (text : Str) :
    ((SKILL_KEYWORDS.filter (fun kw => strContains kw (pyLower text))).map pyTitle).Nodup := by
  have h1 : (SKILL_KEYWORDS.map pyTitle).Nodup := List.Nodup.map_on kwTitleInj kwNodup
  have h2 : List.Sublist
      ((SKILL_KEYWORDS.filter (fun kw => strContains kw (pyLower text))).map pyTitle)
      (SKILL_KEYWORDS.map pyTitle) :=
    (List.filter_sublist _).map pyTitle
  exact List.Nodup.sublist h2 h1

theorem extract_skills_eq (text : Str) :
    _extract_skills text =
      List.insertionSort strLe
        ((SKILL_KEYWORDS.filter (fun kw => strContains kw (pyLower text))).map pyTitle) := by
  simp only [_extract_skills]
  rw [dedupFirst_of_nodup (extract_found_nodup text)]

theorem mem_extract_skills {text s : Str} :
    s ∈ _extract_skills text ↔
      ∃ kw, kw ∈ SKILL_KEYWORDS ∧ strContains kw (pyLower text) = true ∧ s = pyTitle kw := by
  rw [extract_skills_eq, List.mem_insertionSort]
  simp only [List.mem_map, List.mem_filter]
  constructor
  · rintro ⟨kw, ⟨hkw, hc⟩, ht⟩
    exact ⟨kw, hkw, hc, ht.symm⟩
  · rintro ⟨kw, hkw, hc, ht⟩
    exact ⟨kw, ⟨hkw, hc⟩, ht.symm⟩

/-- C5: the parsed skills are exactly the title-cased vocabulary terms that
occur case-insensitively in the text, pairwise distinct under
case-insensitive comparison, and sorted lexicographically. -/
theorem spec_C5_skills_sorted_dedup (text : Str) :
    List.Sorted strLe (_extract_skills text)
    ∧ List.Pairwise (fun a b => pyLower a ≠ pyLower b) (_extract_skills text)
    ∧ ∀ s : Str, (s ∈ _extract_skills text ↔
        ∃ kw, kw ∈ SKILL_KEYWORDS ∧ strContains kw (pyLower text) = true ∧ s = pyTitle kw) := by
  refine ⟨?_, ?_, fun s => mem_extract_skills⟩
  · rw [extract_skills_eq]
    exact List.sorted_insertionSort strLe _
  · have hnd : (_extract_skills text).Nodup := by
      rw [extract_skills_eq]
      exact (List.perm_insertionSort strLe _).symm.nodup (extract_found_nodup text)
    refine List.Pairwise.imp_of_mem ?_ hnd
    intro a b ha hb hne heq
    obtain ⟨ka, hka, _, hta⟩ := mem_extract_skills.mp ha
    obtain ⟨kb, hkb, _, htb⟩ := mem_extract_skills.mp hb
    apply hne
    rw [hta, htb]
    congr 1
    rw [hta, htb] at heq
    rw [kwTitleLower ka hka, kwTitleLower kb hkb] at heq
    exact heq

/-- C5 witness: the title-cased form of a matched vocabulary term is in the
extracted skills of a concrete text. -/
theorem spec_C5_witness : ("Python".data : Str) ∈ _extract_skills w5text :=
  ((spec_C5_skills_sorted_dedup w5text).2.2 ("Python".data)).mpr
    ⟨"python".data, by decide, by decide, by decide⟩

theorem collectEntries_eq : ∀ (l acc : List Str), acc.length < 5 →
    collectEntries acc l
      = (acc ++ (l.filter (fun s => s.length > 8)).map (fun s => s.take 120)).take 5 := by
  intro l
  induction l with
  | nil =>
    intro acc h
    simp only [collectEntries, List.filter_nil, List.map_nil, List.append_nil]
    exact (List.take_of_length_le (Nat.le_of_lt h)).symm
  | cons x rest ih =>
    intro acc h
    simp only [collectEntries]
    by_cases hx : x.length > 8
    · simp only [if_pos hx]
      rw [List.filter_cons_of_pos (by simpa using hx), List.map_cons]
      by_cases h5 : (acc ++ [x.take 120]).length ≥ 5
      · rw [if_pos h5]
        have hlen : (acc ++ [x.take 120]).length = 5 := by
          simp only [List.length_append, List.length_singleton] at h5 ⊢
          omega
        have : acc ++ x.take 120 :: (rest.filter (fun s => s.length > 8)).map (fun s => s.take 120)
            = (acc ++ [x.take 120]) ++ (rest.filter (fun s => s.length > 8)).map (fun s => s.take 120) := by
          simp
        rw [this, List.take_append_eq_append_take, hlen]
        simp [List.take_of_length_le (Nat.le_of_eq hlen)]
      · rw [if_neg h5]
        have hlt : (acc ++ [x.take 120]).length < 5 := by omega
        rw [ih _ hlt]
        simp
    · simp only [if_neg hx]
      rw [if_neg (by omega : ¬ acc.length ≥ 5)]
      rw [List.filter_cons_of_neg (by simpa using hx)]
      exact ih acc h

theorem collectEntries_nil_eq (l : List Str) :
    collectEntries [] l = ((l.filter (fun s => s.length > 8)).map (fun s => s.take 120)).take 5 := by
  rw [collectEntries_eq l [] (by simp)]
  simp

/-- C3 counterexample: the claim is false as stated.  On `c3A` the claimed
header pattern (optional `history` suffix) matches the bare `Experience`
heading while the code returns the placeholder; on `c3B` the code returns
the placeholder although the header matches (the chunk yields no entries);
on `c3C` the code requires a newline before the next-section word while the
claimed pattern does not. -/
theorem spec_C3_counterexample :
    _extract_experience c3A ≠ claimExtractExperience c3A
    ∧ _extract_experience c3A = [expPlaceholder]
    ∧ (searchFrom claimMatchHeaderAt c3A 0).isSome = true
    ∧ _extract_experience c3B ≠ claimExtractExperience c3B
    ∧ _extract_experience c3C ≠ claimExtractExperience c3C := by
  refine ⟨by decide, by decide, by decide, by decide, by decide⟩

/-- C3 amended: experience extraction locates the first case-insensitive
match of `(work\s*experience|professional\s*experience|employment|experience\s*&?\s*history)`
(bare `experience` needs a following `(&) history`; `employment` matches
without consuming any following `history`), takes the chunk from the end of
that match up to the next section header preceded by a newline
(`\n(education|skills|certifications|projects|awards)`) or end of text,
collects the first five stripped lines longer than 8 characters truncated
to 120, pairs them, and returns the placeholder entry exactly when no
header match exists or the paired list is empty. -/
theorem spec_C3_amended (text : Str) :
    _extract_experience text = amendedExtractExperience text := by
  unfold _extract_experience amendedExtractExperience
  cases h : searchFrom matchHeaderAt text 0 with
  | none => rfl
  | some pl =>
    simp only [collectEntries_nil_eq]

theorem pairUpFuel_title_mem : ∀ (fuel : Nat) (l : List Str) (e : ExpEntry),
    e ∈ pairUpFuel fuel l → e.title ∈ l := by
  intro fuel
  induction fuel with
  | zero => intro l e he; simp [pairUpFuel] at he
  | succ n ih =>
    intro l e he
    match l with
    | [] => simp [pairUpFuel] at he
    | [t] =>
      simp only [pairUpFuel, List.mem_singleton] at he
      subst he
      simp
    | t :: d :: rest =>
      simp only [pairUpFuel] at he
      split at he
      · rcases List.mem_cons.mp he with h | h
        · subst h; simp
        · have := ih rest e h
          simp only [List.mem_cons] at this ⊢
          tauto
      · rcases List.mem_cons.mp he with h | h
        · subst h; simp
        · have := ih (d :: rest) e h
          simp only [List.mem_cons] at this ⊢
          tauto

theorem collectEntries_mem_len : ∀ (l acc : List Str) (s : Str),
    s ∈ collectEntries acc l → s ∈ acc ∨ s.length ≤ 120 := by
  intro l
  induction l with
  | nil => intro acc s hs; exact Or.inl hs
  | cons x rest ih =>
    intro acc s hs
    simp only [collectEntries] at hs
    by_cases hx : x.length > 8
    · rw [if_pos hx] at hs
      split at hs
      · rcases List.mem_append.mp hs with h | h
        · exact Or.inl h
        · right
          rw [List.mem_singleton.mp h]
          exact List.length_take_le 120 x
      · rcases ih _ _ hs with h | h
        · rcases List.mem_append.mp h with h2 | h2
          · exact Or.inl h2
          · right
            rw [List.mem_singleton.mp h2]
            exact List.length_take_le 120 x
        · exact Or.inr h
    · rw [if_neg hx] at hs
      split at hs
      · exact Or.inl hs
      · exact ih _ _ hs

theorem ite_isEmpty_length_pos {a : Type} (l : List a) (d : a) :
    0 < (if l.isEmpty then [d] else l).length := by
  split
  · simp
  · next h =>
    refine List.length_pos.mpr ?_
    intro hc
    exact h (by simp [hc])

theorem mem_ite_isEmpty {a : Type} {e : a} {l : List a} {d : a}
    (he : e ∈ (if l.isEmpty then [d] else l)) : e = d ∨ e ∈ l := by
  split at he
  · exact Or.inl (List.mem_singleton.mp he)
  · exact Or.inr he

/-- C9: for every input text the experience and education extractors return
at least one entry (a placeholder is substituted when nothing matches), and
every experience entry title is at most 120 characters long. -/
theorem spec_C9_nonempty_and_title_bound (text : Str) :
    0 < (_extract_experience text).length
    ∧ 0 < (_extract_education text).length
    ∧ ((_extract_experience text).all (fun e => e.title.length ≤ 120)) = true := by
  refine ⟨?_, ?_, ?_⟩
  · unfold _extract_experience
    cases searchFrom matchHeaderAt text 0 with
    | none => simp
    | some pl => exact ite_isEmpty_length_pos _ _
  · unfold _extract_education
    exact ite_isEmpty_length_pos _ _
  · rw [List.all_eq_true]
    intro e he
    simp only [decide_eq_true_eq]
    have hple : expPlaceholder.title.length ≤ 120 := by decide
    unfold _extract_experience at he
    cases h : searchFrom matchHeaderAt text 0 with
    | none =>
      rw [h] at he
      rw [List.mem_singleton.mp he]
      exact hple
    | some pl =>
      rw [h] at he
      rcases mem_ite_isEmpty he with hc | hc
      · rw [hc]
        exact hple
      · have htm := pairUpFuel_title_mem _ _ _ hc
        rcases collectEntries_mem_len _ _ _ htm with h2 | h2
        · simp at h2
        · exact h2

theorem append_isEmpty_false {a : Str} (b : Str) (h : a.isEmpty = false) :
    (a ++ b).isEmpty = false := by
  cases a <;> simp_all

/-- C8: on a profile whose skills, experience and education are all empty,
the document renderer builds a non-empty story and the site renderer
succeeds, producing the two ZIP entries with non-empty contents. -/
theorem spec_C8_renderers_total_on_empty (rt nm em ph today ys : Str) :
    generate_optimized_cv ⟨rt, nm, em, ph, [], [], []⟩ none ≠ []
    ∧ ∃ entries, generate_portfolio today ys ⟨rt, nm, em, ph, [], [], []⟩ = Except.ok entries
        ∧ entries.length = 2
        ∧ entries.map (fun e => e.2.isEmpty) = [false, false] := by
  constructor
  · simp [generate_optimized_cv]
  · refine ⟨_, rfl, rfl, ?_⟩
    simp only [List.map_cons, List.map_nil]
    have h1 : (portfolioHtml nm em ph [] [] []
        (joinSep ("\n".data) []) ys).isEmpty = false := by
      unfold portfolioHtml
      repeat apply append_isEmpty_false
      decide
    have h2 : (portfolioReadme nm today).isEmpty = false := by
      unfold portfolioReadme
      repeat apply append_isEmpty_false
      decide
    rw [h1, h2]

theorem mapCards_error_of_mem_nil : ∀ (l : List Str), ([] : Str) ∈ l →
    mapCards l = Except.error RenderError.indexError := by
  intro l
  induction l with
  | nil => intro h; simp at h
  | cons s rest ih =>
    intro h
    rcases List.mem_cons.mp h with h1 | h1
    · rw [← h1]
      rfl
    · cases s with
      | nil => rfl
      | cons c cs =>
        simp only [mapCards, skillCard, ih h1]

theorem mapCards_ok_of_ne_nil : ∀ (l : List Str), (∀ s ∈ l, s ≠ ([] : Str)) →
    ∃ cs, mapCards l = Except.ok cs := by
  intro l
  induction l with
  | nil => intro _; exact ⟨[], rfl⟩
  | cons s rest ih =>
    intro h
    obtain ⟨cs, hcs⟩ := ih (fun x hx => h x (List.mem_cons_of_mem s hx))
    cases s with
    | nil => exact absurd rfl (h [] (List.mem_cons_self [] rest))
    | cons c cs2 =>
      simp only [mapCards, skillCard, hcs]
      exact ⟨_, rfl⟩

/-- C10 amended: the site renderer reads the first character of each of the
first 16 skill strings, so it raises exactly when one of the first 16
skills is the empty string; it succeeds whenever the first 16 skills are
all non-empty (an empty string at position 17 or later is never read); and
skill extraction only produces non-empty (title-cased vocabulary) strings,
so extracted profiles satisfy the precondition. -/
theorem spec_C10_empty_skill_amended :
    (∀ (today ys : Str) (cv_data : CVData), ([] : Str) ∈ cv_data.skills.take 16 →
        generate_portfolio today ys cv_data = Except.error RenderError.indexError)
    ∧ (∀ (today ys : Str) (cv_data : CVData), (∀ s ∈ cv_data.skills.take 16, s ≠ ([] : Str)) →
        (generate_portfolio today ys cv_data).isOk = true)
    ∧ (∀ (text s : Str), s ∈ _extract_skills text → s ≠ ([] : Str)) := by
  refine ⟨?_, ?_, ?_⟩
  · intro today ys cv_data h
    unfold generate_portfolio
    rw [mapCards_error_of_mem_nil _ h]
  · intro today ys cv_data h
    obtain ⟨cs, hcs⟩ := mapCards_ok_of_ne_nil _ h
    unfold generate_portfolio
    rw [hcs]
    rfl
  · intro text s hs
    obtain ⟨kw, hkw, _, ht⟩ := mem_extract_skills.mp hs
    rw [ht]
    exact kwTitleNeNil kw hkw

/-- C10 witness: the renderer raises on a profile whose first skill is
empty, succeeds on an all-empty profile, and a concrete extracted skill is
non-empty. -/
theorem spec_C10_empty_skill_witness :
    generate_portfolio ("d".data) ("2026".data) w10bad = Except.error RenderError.indexError
    ∧ (generate_portfolio ("d".data) ("2026".data) w10good).isOk = true
    ∧ ("Python".data : Str) ≠ ([] : Str) := by
  refine ⟨?_, ?_, ?_⟩
  · exact spec_C10_empty_skill_amended.1 ("d".data) ("2026".data) w10bad (by decide)
  · exact spec_C10_empty_skill_amended.2.1 ("d".data) ("2026".data) w10good (by decide)
  · exact spec_C10_empty_skill_amended.2.2 ("i know python".data) ("Python".data) (by decide)

/-- C10 counterexample: a profile whose skills list contains an empty
string (in position 17) on which the site renderer nevertheless succeeds,
refuting the claim that any profile containing an empty skill string makes
`renderSite` raise. -/
theorem spec_C10_counterexample :
    ([] : Str) ∈ c10profile.skills
    ∧ (generate_portfolio ("d".data) ("2026".data) c10profile).isOk = true := by
  refine ⟨by decide, by decide⟩

/-- C4: the streamlit shell's merge keeps every scalar field of the primary
profile and merges skills as the order-preserving set union (primary's
skills first, then the secondary's new skills in the secondary's order),
evaluated here at the failing input of the `app.py` shell, whose
`list(set(...))` merge provides no such ordering guarantee. -/
theorem spec_C4_streamlit_merge_order :
    merge_skills_streamlit
        ["Python".data, "Aws".data] ["Docker".data, "Python".data]
      = ["Python".data, "Aws".data, "Docker".data]
    ∧ (∀ p q : CVData,
        (merge_profiles_streamlit p q).raw_text = p.raw_text
        ∧ (merge_profiles_streamlit p q).name = p.name
        ∧ (merge_profiles_streamlit p q).email = p.email
        ∧ (merge_profiles_streamlit p q).phone = p.phone
        ∧ (merge_profiles_streamlit p q).experience = p.experience
        ∧ (merge_profiles_streamlit p q).education = p.education) := by
  exact ⟨by decide, fun p q => ⟨rfl, rfl, rfl, rfl, rfl, rfl⟩⟩
